import Mathlib

/-!
Shallow embedding of `superset/mcp_service/jwt_verifier.py`: the detailed
JWT verification pipeline (`DetailedJWTVerifier.load_access_token`), the
bearer authentication backend (`DetailedBearerAuthBackend.authenticate`)
and the generic 401 error handler (`_json_auth_error_handler`).

Modelling conventions:
- Python exceptions are an explicit `PyExc` type; an `except` clause is a
  match on the constructors it catches, with authlib's subclass structure
  (`DecodeError`, `BadSignatureError`, `ExpiredTokenError` are subclasses
  of `JoseError`) encoded in `PyExc.isJoseError`.
- The outcomes of the external calls made by `load_access_token`
  (`_decode_token_header`, `_get_verification_key`, `self.jwt.decode`,
  `self._extract_scopes`, `time.time()`) are inputs, collected in a
  `TokenEnv`; the pipeline logic itself is translated statement by
  statement.
- Python dynamic values appearing in claims are `JValue`, with Python
  truthiness (`truthy`) and Python comparison semantics (comparing a
  non-number to a number with `<` is a `TypeError`).
- The `_jwt_failure_reason` ContextVar is threaded explicitly: the
  pipeline takes the channel value before the call and returns the
  channel value after the call.
-/

namespace JwtVerifier

/-- Python exception classes relevant to `load_access_token`.
`joseOther` stands for a `JoseError` that is none of the three specific
subclasses; `otherError` stands for any exception class outside the ones
named in the source (e.g. `RuntimeError`). -/
inductive PyExc where
  | valueError
  | keyError
  | attributeError
  | typeError
  | joseOther
  | decodeError
  | badSignature
  | expiredToken
  | otherError (name : String)
deriving DecidableEq, Repr

/-- Models `isinstance(e, JoseError)`: the three specific authlib errors are
subclasses of `JoseError`. -/
def PyExc.isJoseError : PyExc → Bool
  | .joseOther => true
  | .decodeError => true
  | .badSignature => true
  | .expiredToken => true
  | _ => false

/-- The exception tuple of the outer catch-all at line 285:
`except (ValueError, JoseError, KeyError, AttributeError, TypeError)`. -/
def catchAllCatches : PyExc → Bool
  | .valueError => true
  | .keyError => true
  | .attributeError => true
  | .typeError => true
  | e => e.isJoseError

/-- Dynamic JSON/claim values as they occur in a decoded JWT. -/
inductive JValue where
  | str (s : String)
  | num (n : Int)
  | list (xs : List JValue)
  | null
deriving Repr

/-- Python truthiness for claim values: `0`, `""`, `[]` and `None`
are falsy. -/
def truthy : JValue → Bool
  | .str s => s ≠ ""
  | .num n => n ≠ 0
  | .list xs => !xs.isEmpty
  | .null => false

/-- Python `==` between a claim value and a string (all comparisons in
the source compare claim values against configured strings). -/
def JValue.eqStr : JValue → String → Bool
  | .str s, t => s = t
  | _, _ => false

/-- Python `str(v)` for the values we build a client id from.  Lists are not
rendered in Python repr detail; no property in this development depends
on the rendering of a non-scalar client id. -/
def pyStr : JValue → String
  | .str s => s
  | .num n => toString n
  | .list _ => "<list>"
  | .null => "None"

/-- Python `int(v)`: exact for ints, `ValueError` on non-numeric strings,
`TypeError` on lists and `None`. -/
def pyInt : JValue → Except PyExc Int
  | .num n => .ok n
  | .str s => match s.toInt? with
    | some n => .ok n
    | none => .error .valueError
  | .list _ => .error .typeError
  | .null => .error .typeError

/-- Python `v < now` where `now` is the numeric result of `time.time()`:
comparing a string or list to a number raises `TypeError`. -/
def pyLtNum (v : JValue) (now : Int) : Except PyExc Bool
  := match v with
  | .num n => .ok (n < now)
  | _ => .error .typeError

/-- A decoded claims mapping (Python dict decoded from JSON). -/
def Claims : Type := List (String × JValue)

/-- Python `claims.get(key)`: `None` when the key is absent. -/
def getClaim (claims : Claims) (key : String) : Option JValue :=
  (claims.find? (fun kv => kv.1 = key)).map (fun kv => kv.2)

/-- A configuration value that is `str | list[str]` in Python. -/
inductive StrOrList where
  | one (s : String)
  | many (xs : List String)
deriving DecidableEq, Repr

/-- Python truthiness of a `str | list[str]` configuration value. -/
def StrOrList.isTruthy : StrOrList → Bool
  | .one s => s ≠ ""
  | .many xs => xs ≠ []

/-- The verifier configuration consumed by `load_access_token`
(attributes of `JWTVerifier`). -/
structure VerifierConfig where
  algorithm : Option String
  issuer : Option StrOrList
  audience : Option StrOrList
  required_scopes : Option (List String)
deriving Repr

/-- Outcomes of the external calls made during one run of
`load_access_token` on a given token, plus the current time. -/
structure TokenEnv where
  headerResult : Except PyExc Claims
  keyResult : Except PyExc String
  decodeResult : Except PyExc Claims
  scopesResult : Except PyExc (List String)
  now : Int

/-- Lines 162-163: `if self.algorithm and token_alg != self.algorithm`. -/
def algMismatch (cfgAlg : Option String) (tokenAlg : Option JValue) : Bool :=
  match cfgAlg with
  | none => false
  | some a => a ≠ "" && !(match tokenAlg with
      | some v => v.eqStr a
      | none => false)

/-- Python `x in xs` where `x` is an optional claim value and `xs` a list of
configured strings (`None in xs` is `False`). -/
def optInStrList (v : Option JValue) (xs : List String) : Bool :=
  match v with
  | some w => xs.any (fun s => w.eqStr s)
  | none => false

/-- Lines 218-221: `issuer_valid` for a configured issuer. -/
def issuerValid (cfgIss : StrOrList) (iss : Option JValue) : Bool :=
  match cfgIss with
  | .many xs => optInStrList iss xs
  | .one s => (match iss with
      | some v => v.eqStr s
      | none => false)

/-- Lines 216-231 condensed: the issuer stage reports a mismatch iff an
issuer is configured (truthy) and `issuer_valid` is false. -/
def issuerStageFails (cfgIss : Option StrOrList) (iss : Option JValue) : Bool :=
  match cfgIss with
  | none => false
  | some c => c.isTruthy && !(issuerValid c iss)

/-- Lines 236-248: `audience_valid`, all four scalar/list combinations. -/
def audienceValid (cfgAud : StrOrList) (aud : Option JValue) : Bool :=
  match cfgAud with
  | .many xs =>
    (match aud with
     | some (.list ys) => xs.any (fun e => ys.any (fun y => y.eqStr e))
     | a => optInStrList a xs)
  | .one s =>
    (match aud with
     | some (.list ys) => ys.any (fun y => y.eqStr s)
     | a => (match a with
         | some v => v.eqStr s
         | none => false))

/-- Lines 234-258 condensed: the audience stage reports a mismatch iff an
audience is configured (truthy) and `audience_valid` is false. -/
def audienceStageFails (cfgAud : Option StrOrList) (aud : Option JValue) : Bool :=
  match cfgAud with
  | none => false
  | some c => c.isTruthy && !(audienceValid c aud)

/-- Lines 262-265: `if self.required_scopes` and
`required.issubset(token_scopes)` on sets. -/
def scopesStageFails (req : Option (List String)) (scopes : List String) : Bool :=
  match req with
  | none => false
  | some rs => rs ≠ [] && !(rs.all (fun r => scopes.contains r))

/-- Python `a or b` on optional claim values: the left operand wins iff
it is present and truthy. -/
def pyOr (a b : Option JValue) : Option JValue :=
  match a with
  | some v => if truthy v then some v else b
  | none => b

/-- Lines 200-205: `claims.get("client_id") or claims.get("azp") or
claims.get("sub") or "unknown"`, then `str(...)` at line 279. -/
def clientIdOf (claims : Claims) : String :=
  match pyOr (getClaim claims "client_id")
      (pyOr (getClaim claims "azp") (getClaim claims "sub")) with
  | some v => if truthy v then pyStr v else "unknown"
  | none => "unknown"

/-- Lines 208-209 condensed: the value of `exp and exp < time.time()`
as a boolean, or the exception it raises. -/
def expStageCheck (exp : Option JValue) (now : Int) : Except PyExc Bool :=
  match exp with
  | none => .ok false
  | some v => if truthy v then pyLtNum v now else .ok false

/-- Line 281: `int(exp) if exp else None`. -/
def expiresAtOf (exp : Option JValue) : Except PyExc (Option Int) :=
  match exp with
  | none => .ok none
  | some v => if truthy v then (pyInt v).map some else .ok none

/-- The `AccessToken` built on the success path (lines 277-283). -/
structure AccessTokenModel where
  token : String
  client_id : String
  scopes : List String
  expires_at : Option Int
  claims : Claims

/-- Outcome of the body of the outer `try` when no exception escapes:
either the built access token or the failure reason stored in the
ContextVar just before a `return None`. -/
inductive StageResult where
  | success (t : AccessTokenModel)
  | failure (reason : String)

/-- Lines 199-283: the claims-level stages (expiry, issuer, audience,
scopes) and the success path, run after `self.jwt.decode` returned a
claims mapping. -/
def claimsStages (cfg : VerifierConfig) (env : TokenEnv) (token : String)
    (claims : Claims) : Except PyExc StageResult :=
  -- Step 4: expiration
  match expStageCheck (getClaim claims "exp") env.now with
  | .error e => .error e
  | .ok expired =>
    if expired then .ok (.failure "Token expired")
    else
      -- Step 5: issuer
      if issuerStageFails cfg.issuer (getClaim claims "iss") then
        .ok (.failure "Issuer mismatch")
      else
        -- Step 6: audience
        if audienceStageFails cfg.audience (getClaim claims "aud") then
          .ok (.failure "Audience mismatch")
        else
          -- Step 7: scopes
          match env.scopesResult with
          | .error e => .error e
          | .ok scopes =>
            if scopesStageFails cfg.required_scopes scopes then
              .ok (.failure "Missing required scopes")
            else
              match expiresAtOf (getClaim claims "exp") with
              | .error e => .error e
              | .ok expiresAt =>
                .ok (.success
                  { token := token
                    client_id := clientIdOf claims
                    scopes := scopes
                    expires_at := expiresAt
                    claims := claims })

/-- Lines 152-283: the staged pipeline inside the outer `try`.
`Except.error e` means the exception `e` escapes all the per-stage
handlers and reaches the outer catch-all. -/
def runStages (cfg : VerifierConfig) (env : TokenEnv) (token : String) :
    Except PyExc StageResult :=
  -- Step 1: decode header; `except (ValueError, DecodeError)`
  match env.headerResult with
  | .error e =>
    if e = .valueError || e = .decodeError then
      .ok (.failure "Malformed token header")
    else .error e
  | .ok header =>
    if algMismatch cfg.algorithm (getClaim header "alg") then
      .ok (.failure "Algorithm mismatch")
    else
      -- Step 2: verification key; `except ValueError`
      match env.keyResult with
      | .error e =>
        if e = .valueError then
          .ok (.failure "Failed to get verification key")
        else .error e
      | .ok _ =>
        -- Step 3: decode and verify signature
        match env.decodeResult with
        | .error .badSignature => .ok (.failure "Signature verification failed")
        | .error .expiredToken =>
          .ok (.failure "Token has expired (detected during decode)")
        | .error e =>
          if e.isJoseError then .ok (.failure "Token decode failed")
          else .error e
        | .ok claims => claimsStages cfg env token claims

/-- Function `DetailedJWTVerifier.load_access_token` (lines 142-289).  `ch0` is
the ContextVar value before the call; it is overwritten by the reset at
line 150, so no stage ever observes it.  The pair is (returned value or
escaping exception, ContextVar value after the call). -/
def load_access_token (cfg : VerifierConfig) (env : TokenEnv) (token : String)
    (_ch0 : Option String) : Except PyExc (Option AccessTokenModel) × Option String :=
  -- line 150: `_jwt_failure_reason.set(None)` discards `ch0`
  match runStages cfg env token with
  | .ok (.success t) => (.ok (some t), none)
  | .ok (.failure r) => (.ok none, some r)
  | .error e =>
    if catchAllCatches e then (.ok none, some "Token validation failed")
    else (.error e, none)

/-- The closed enumeration of failure categories that the pipeline can
publish to the ContextVar (spec section 3, `FailureCategory`). -/
inductive FailureCategory where
  | malformedHeader
  | algorithmMismatch
  | keyResolutionFailed
  | signatureFailed
  | expiredAtDecode
  | decodeFailed
  | tokenExpired
  | issuerMismatch
  | audienceMismatch
  | missingScopes
  | validationFailed
deriving DecidableEq, Repr

/-- The category strings exactly as they appear in the source. -/
def FailureCategory.text : FailureCategory → String
  | .malformedHeader => "Malformed token header"
  | .algorithmMismatch => "Algorithm mismatch"
  | .keyResolutionFailed => "Failed to get verification key"
  | .signatureFailed => "Signature verification failed"
  | .expiredAtDecode => "Token has expired (detected during decode)"
  | .decodeFailed => "Token decode failed"
  | .tokenExpired => "Token expired"
  | .issuerMismatch => "Issuer mismatch"
  | .audienceMismatch => "Audience mismatch"
  | .missingScopes => "Missing required scopes"
  | .validationFailed => "Token validation failed"

/-- An HTTP response as built by `_json_auth_error_handler`: status,
rendered JSON body and the explicitly set headers. -/
structure ResponseModel where
  status : Nat
  body : String
  headers : List (String × String)
deriving DecidableEq, Repr

/-- Handler `_json_auth_error_handler` (lines 65-91).  `excText` is `str(exc)`,
the message of the `AuthenticationError`; it is used only for the
server-side warning log, never for the response.  The body is the
compact JSON rendering Starlette produces for the content dict. -/
def _json_auth_error_handler (excText : String) : ResponseModel :=
  -- `logger.warning("JWT authentication failed: %s", exc)` consumes
  -- `excText` server-side only
  let _ := excText
  { status := 401
    body := "\x7b\"error\":\"invalid_token\",\"error_description\":\"Authentication failed\"\x7d"
    headers := [("WWW-Authenticate", "Bearer error=\"invalid_token\"")] }

/-- Observable outcome of `DetailedBearerAuthBackend.authenticate`:
the tuple from the parent class, `None`, or a raised
`AuthenticationError` with its message. -/
inductive AuthOutcome where
  | success
  | anonymous
  | authError (msg : String)
deriving DecidableEq, Repr

/-- Python `s.lower()` (the strings involved are ASCII header names and
scheme prefixes). -/
def pyLower (s : String) : String := String.mk (s.data.map Char.toLower)

/-- Python `s.startswith(p)`. -/
def pyStartsWith (s p : String) : Bool := p.data.isPrefixOf s.data

/-- Lines 110-117: find the value of the first header whose key is
`authorization` case-insensitively. -/
def findAuthHeader (headers : List (String × String)) : Option String :=
  (headers.find? (fun kv => pyLower kv.1 = "authorization")).map (fun kv => kv.2)

/-- Method `DetailedBearerAuthBackend.authenticate` (lines 100-124).
`superResult` is the value returned by `super().authenticate(conn)`
(`some` for a credentials tuple, `none` for `None`); `ch` is the
ContextVar value at that point.  Result: outcome plus ContextVar value
after the call. -/
def authenticate (superResult : Option Unit) (headers : List (String × String))
    (ch : Option String) : AuthOutcome × Option String :=
  match superResult with
  | some _ => (.success, none)  -- clear any stale failure reason on success
  | none =>
    match findAuthHeader headers with
    | some v =>
      if pyStartsWith (pyLower v) "bearer " then
        match ch with
        | some reason =>
          -- line 120: `if reason:` - Python truthiness on the string
          if reason ≠ "" then (.authError reason, none)
          else (.anonymous, ch)
        | none => (.anonymous, none)
      else (.anonymous, ch)
    | none => (.anonymous, ch)

/-- True iff the connection carries an `Authorization` header whose value
has a `Bearer ` scheme prefix (case-insensitively), i.e. the condition of
line 118. -/
def hasBearerHeader (headers : List (String × String)) : Bool :=
  match findAuthHeader headers with
  | some v => pyStartsWith (pyLower v) "bearer "
  | none => false

/-- The configured audience as a set (list) of expected strings: a scalar
configuration is the singleton set.  Spec-side notion for the
set-intersection reading of the audience check. -/
def expectedAudiences : StrOrList → List String
  | .one s => [s]
  | .many xs => xs

/-- The token's audience as a set (list) of claim values: a scalar `aud`
is a singleton, a missing `aud` is empty.  Spec-side notion for the
set-intersection reading of the audience check. -/
def audMembers : Option JValue → List JValue
  | some (.list ys) => ys
  | some v => [v]
  | none => []

/-- First present-and-truthy value in a list of optional claim values. -/
def firstTruthy : List (Option JValue) → Option JValue
  | [] => none
  | a :: rest =>
    match a with
    | some v => if truthy v then some v else firstTruthy rest
    | none => firstTruthy rest

/-- Spec-side client-id rule as amended: the first truthy value among
`client_id`, `azp`, `sub` rendered with `str`, else `"unknown"`. -/
def specClientId (claims : Claims) : String :=
  match firstTruthy
      [getClaim claims "client_id", getClaim claims "azp", getClaim claims "sub"] with
  | some v => pyStr v
  | none => "unknown"

/-- Spec-side expiry field rule as amended: the integer `exp` when `exp`
is present, numeric and truthy (nonzero); absent otherwise. -/
def specExpiresAt (claims : Claims) : Option Int :=
  match getClaim claims "exp" with
  | some (.num n) => if n = 0 then none else some n
  | _ => none

/-! Concrete fixtures used by counterexamples and witnesses. -/

/-- A configuration with nothing configured: no expected algorithm,
issuer, audience or required scopes. -/
def cfgPlain : VerifierConfig :=
  { algorithm := none, issuer := none, audience := none, required_scopes := none }

/-- The decoded header of a standard HS256 token. -/
def hsHeader : Claims := [("alg", JValue.str "HS256")]

/-- An environment in which every external call succeeds and
`jwt.decode` returns the given claims.  The fixed `now` is an epoch
timestamp (2023-11-14). -/
def mkEnv (claims : Claims) : TokenEnv :=
  { headerResult := .ok hsHeader
    keyResult := .ok "verification-key"
    decodeResult := .ok claims
    scopesResult := .ok []
    now := 1700000000 }

/-- Claims of a benign token with only a subject. -/
def claimsOk : Claims := [("sub", JValue.str "user1")]

/-- Environment where `jwt.decode` raises an exception class outside the
tuple of the outer catch-all (e.g. a `RuntimeError`). -/
def envC2 : TokenEnv := { mkEnv claimsOk with decodeResult := .error (.otherError "RuntimeError") }

/-- Environment where `_extract_scopes` raises a `TypeError` (as in the
repository's own catch-all test). -/
def envC2w : TokenEnv := { mkEnv claimsOk with scopesResult := .error .typeError }

/-- Claims carrying `exp = 0`: numerically in the past, but falsy. -/
def claimsC4 : Claims := [("sub", JValue.str "user1"), ("exp", JValue.num 0)]

/-- Environment decoding `claimsC4`. -/
def envC4 : TokenEnv := mkEnv claimsC4

/-- Claims with a present-but-empty `client_id`, a truthy `azp` and a
falsy `exp`. -/
def claimsC5 : Claims :=
  [("client_id", JValue.str ""), ("azp", JValue.str "service-a"), ("exp", JValue.num 0)]

/-- Environment decoding `claimsC5`. -/
def envC5 : TokenEnv := mkEnv claimsC5

/-- Claims whose scalar `aud` matches none of the configured audiences. -/
def claimsC6 : Claims := [("sub", JValue.str "user1"), ("aud", JValue.str "wrong-aud")]

/-- Configuration with a list audience. -/
def cfgC6 : VerifierConfig :=
  { cfgPlain with audience := some (.many ["aud1", "aud2"]) }

/-- Configuration with a scalar audience. -/
def cfgC10 : VerifierConfig :=
  { cfgPlain with audience := some (.one "test-audience") }

/-- Claims of a token that is both expired (`exp` far in the past) and
has a wrong issuer. -/
def claimsC8 : Claims :=
  [("sub", JValue.str "user1"), ("iss", JValue.str "wrong-issuer"),
   ("exp", JValue.num 100)]

/-- Configuration expecting a scalar issuer. -/
def cfgC8 : VerifierConfig :=
  { cfgPlain with issuer := some (.one "test-issuer") }

/-- The principal the pipeline actually builds from `claimsC5`. -/
def tokC5 : AccessTokenModel :=
  { token := "tok", client_id := "service-a", scopes := [],
    expires_at := none, claims := claimsC5 }

/-! Helper lemmas about the pipeline. -/

/-- When the header decodes, the algorithm check passes, the key resolves
and `jwt.decode` returns claims, the run continues with the claims-level
stages. -/
theorem runStages_decoded (cfg : VerifierConfig) (env : TokenEnv) (token : String)
    (header claims : Claims) (k : String)
    (h1 : env.headerResult = .ok header)
    (h2 : algMismatch cfg.algorithm (getClaim header "alg") = false)
    (h3 : env.keyResult = .ok k)
    (h4 : env.decodeResult = .ok claims) :
    runStages cfg env token = claimsStages cfg env token claims := by
  unfold runStages
  rw [h1, h3, h4]
  simp [h2]

/-- A nonzero numeric `exp` in the past makes the expiry stage fail. -/
theorem claimsStages_expired (cfg : VerifierConfig) (env : TokenEnv) (token : String)
    (claims : Claims) (n : Int)
    (hexp : getClaim claims "exp" = some (JValue.num n))
    (hn : n ≠ 0) (hlt : n < env.now) :
    claimsStages cfg env token claims = .ok (.failure "Token expired") := by
  unfold claimsStages
  rw [hexp]
  simp [expStageCheck, truthy, hn, pyLtNum, hlt]

/-- Whatever failure reason the staged pipeline produces is one of the
category strings of the closed enumeration. -/
theorem runStages_failure_mem (cfg : VerifierConfig) (env : TokenEnv) (token : String)
    (r : String) (h : runStages cfg env token = .ok (.failure r)) :
    r ∈ ["Malformed token header", "Algorithm mismatch",
         "Failed to get verification key", "Signature verification failed",
         "Token has expired (detected during decode)", "Token decode failed",
         "Token expired", "Issuer mismatch", "Audience mismatch",
         "Missing required scopes"] := by
  unfold runStages claimsStages at h
  repeat' split at h
  all_goals simp_all

/-- Every category string of the closed list is the text of a
`FailureCategory` constructor. -/
theorem category_of_text (r : String)
    (h : r ∈ ["Malformed token header", "Algorithm mismatch",
         "Failed to get verification key", "Signature verification failed",
         "Token has expired (detected during decode)", "Token decode failed",
         "Token expired", "Issuer mismatch", "Audience mismatch",
         "Missing required scopes"]) :
    ∃ c : FailureCategory, r = c.text := by
  simp only [List.mem_cons, List.not_mem_nil, or_false] at h
  rcases h with rfl | rfl | rfl | rfl | rfl | rfl | rfl | rfl | rfl | rfl
  · exact ⟨.malformedHeader, rfl⟩
  · exact ⟨.algorithmMismatch, rfl⟩
  · exact ⟨.keyResolutionFailed, rfl⟩
  · exact ⟨.signatureFailed, rfl⟩
  · exact ⟨.expiredAtDecode, rfl⟩
  · exact ⟨.decodeFailed, rfl⟩
  · exact ⟨.tokenExpired, rfl⟩
  · exact ⟨.issuerMismatch, rfl⟩
  · exact ⟨.audienceMismatch, rfl⟩
  · exact ⟨.missingScopes, rfl⟩

/-- A result of `Except.ok (some a)` can only come from the success
branch of the pipeline. -/
theorem load_success_inv (cfg : VerifierConfig) (env : TokenEnv) (token : String)
    (ch : Option String) (a : AccessTokenModel)
    (h : (load_access_token cfg env token ch).1 = .ok (some a)) :
    runStages cfg env token = .ok (.success a) := by
  unfold load_access_token at h
  cases hr : runStages cfg env token with
  | ok sr =>
    cases sr with
    | success t => rw [hr] at h; simp at h; rw [h]
    | failure r => rw [hr] at h; simp at h
  | error e =>
    rw [hr] at h
    by_cases hc : catchAllCatches e <;> simp [hc] at h

/-- When the expiry check evaluates to false, no later stage can publish
the category "Token expired". -/
theorem claimsStages_not_expired_reason (cfg : VerifierConfig) (env : TokenEnv)
    (token : String) (claims : Claims) (r : String)
    (hstage : expStageCheck (getClaim claims "exp") env.now = .ok false)
    (h : claimsStages cfg env token claims = .ok (.failure r)) :
    r ≠ "Token expired" := by
  unfold claimsStages at h
  rw [hstage] at h
  repeat' split at h
  all_goals simp_all
  all_goals (subst h; decide)

/-- What the success branch of the claims-level stages guarantees about
the principal it builds. -/
theorem claimsStages_success_inv (cfg : VerifierConfig) (env : TokenEnv)
    (token : String) (claims : Claims) (a : AccessTokenModel)
    (h : claimsStages cfg env token claims = .ok (.success a)) :
    a.client_id = clientIdOf claims
    ∧ expiresAtOf (getClaim claims "exp") = .ok a.expires_at
    ∧ expStageCheck (getClaim claims "exp") env.now = .ok false := by
  unfold claimsStages at h
  repeat' split at h
  all_goals simp_all
  subst h
  exact ⟨rfl, rfl⟩

/-! Claim theorems. -/

/-- C1: for every failure-reason string carried by the raised
`AuthenticationError` - any `FailureCategory` text or any other injected
string - `_json_auth_error_handler` returns the identical response:
status 401, the fixed generic JSON body, and the single fixed
`WWW-Authenticate: Bearer error="invalid_token"` header. -/
theorem c1_error_handler_uniform (r1 r2 : String) :
    _json_auth_error_handler r1 = _json_auth_error_handler r2
    ∧ _json_auth_error_handler r1 =
      { status := 401
        body := "\x7b\"error\":\"invalid_token\",\"error_description\":\"Authentication failed\"\x7d"
        headers := [("WWW-Authenticate", "Bearer error=\"invalid_token\"")] } :=
  ⟨rfl, rfl⟩

/-- C3: the failure channel is reset at the start of every call, so the
channel value after a call never depends on the channel value before it
(after two sequential validation attempts the channel holds exactly what
the second attempt produced), and a successful validation leaves the
channel empty. -/
theorem c3_channel_reset_and_cleared (cfg : VerifierConfig) (env1 env2 : TokenEnv)
    (t1 t2 : String) (ch0 : Option String) :
    (load_access_token cfg env2 t2 (load_access_token cfg env1 t1 ch0).2).2
      = (load_access_token cfg env2 t2 none).2
    ∧ ∀ (ch : Option String) (a : AccessTokenModel),
        (load_access_token cfg env2 t2 ch).1 = .ok (some a) →
        (load_access_token cfg env2 t2 ch).2 = none := by
  constructor
  · rfl
  · intro ch a h
    have hr := load_success_inv cfg env2 t2 ch a h
    unfold load_access_token
    rw [hr]

/-- C3 witness: a successful validation on a context whose channel still
holds a stale category leaves the channel empty. -/
theorem c3_witness :
    (load_access_token cfgPlain (mkEnv claimsOk) "tok" (some "Issuer mismatch")).2
      = none :=
  (c3_channel_reset_and_cleared cfgPlain (mkEnv claimsOk) (mkEnv claimsOk)
      "tok" "tok" none).2 (some "Issuer mismatch")
    { token := "tok", client_id := "user1", scopes := [],
      expires_at := none, claims := claimsOk } rfl

/-- C7: the bearer backend returns `None` without raising when no
`Authorization` header with a Bearer scheme is present; when a bearer
token is present and the pipeline produced no result, it raises an
`AuthenticationError` carrying exactly the channel's category and clears
the channel if a category is present, and returns `None` without raising
if the channel is empty. -/
theorem c7_authenticate_contract (headers : List (String × String))
    (ch : Option String) (c : FailureCategory) :
    (hasBearerHeader headers = false →
      authenticate none headers ch = (.anonymous, ch))
    ∧ (hasBearerHeader headers = true → ch = some c.text →
      authenticate none headers ch = (.authError c.text, none))
    ∧ (hasBearerHeader headers = true → ch = none →
      authenticate none headers ch = (.anonymous, none)) := by
  refine ⟨?_, ?_, ?_⟩ <;> unfold authenticate hasBearerHeader
  · intro h
    cases hf : findAuthHeader headers with
    | none => simp
    | some v =>
      rw [hf] at h
      have h2 : pyStartsWith (pyLower v) "bearer " = false := h
      simp [h2]
  · intro h hc
    subst hc
    cases hf : findAuthHeader headers with
    | none => simp [hf] at h
    | some v =>
      rw [hf] at h
      have h2 : pyStartsWith (pyLower v) "bearer " = true := h
      have htext : c.text ≠ "" := by cases c <;> decide
      simp [h2, htext]
  · intro h hc
    subst hc
    cases hf : findAuthHeader headers with
    | none => simp [hf] at h
    | some v =>
      rw [hf] at h
      have h2 : pyStartsWith (pyLower v) "bearer " = true := h
      simp [h2]

/-- C2 counterexample: an exception whose class is outside the tuple
`(ValueError, JoseError, KeyError, AttributeError, TypeError)` - here a
`RuntimeError` raised inside `jwt.decode` - is not caught by the
catch-all: the call propagates the exception instead of returning no
result, and the failure channel is not set to "Token validation failed". -/
theorem c2_counterexample :
    load_access_token cfgPlain envC2 "tok" none
      = (Except.error (PyExc.otherError "RuntimeError"), none)
    ∧ (load_access_token cfgPlain envC2 "tok" none).2
      ≠ some "Token validation failed" :=
  ⟨rfl, by decide⟩

/-- C2 as amended: any exception of class `ValueError`, `JoseError`
(including its subclasses), `KeyError`, `AttributeError` or `TypeError`
that escapes the per-stage handlers is caught by the catch-all boundary,
and the call returns no result with the failure channel set to the
generic category "Token validation failed". -/
theorem c2_amended_catch_all (cfg : VerifierConfig) (env : TokenEnv)
    (token : String) (ch : Option String) (e : PyExc)
    (hrun : runStages cfg env token = .error e)
    (hcaught : catchAllCatches e = true) :
    load_access_token cfg env token ch
      = (.ok none, some "Token validation failed") := by
  unfold load_access_token
  rw [hrun]
  simp [hcaught]

/-- C2 witness: a `TypeError` raised by `_extract_scopes` (the scenario
of the repository's own catch-all test) is caught and mapped to
"Token validation failed". -/
theorem c2_witness :
    load_access_token cfgPlain envC2w "tok" none
      = (.ok none, some "Token validation failed") :=
  c2_amended_catch_all cfgPlain envC2w "tok" none .typeError rfl rfl

/-- C4 counterexample: the claims of `claimsC4` contain `exp = 0`, a
value numerically less than the current time, yet the call succeeds with
an empty failure channel instead of failing with "Token expired",
because `if exp and ...` skips the check for a falsy `exp`. -/
theorem c4_counterexample :
    getClaim claimsC4 "exp" = some (JValue.num 0)
    ∧ (0 : Int) < envC4.now
    ∧ load_access_token cfgPlain envC4 "tok" none
      = (.ok (some { token := "tok", client_id := "user1", scopes := [],
                     expires_at := none, claims := claimsC4 }), none)
    ∧ (load_access_token cfgPlain envC4 "tok" none).2 ≠ some "Token expired" :=
  ⟨rfl, by decide, rfl, by decide⟩

/-- C4 as amended: for every token whose claims carry a nonzero (truthy)
numeric `exp` strictly less than the current time, and which reaches the
expiry stage, `load_access_token` returns no result and the channel
holds exactly the constant category "Token expired". -/
theorem c4_amended_expired (cfg : VerifierConfig) (env : TokenEnv)
    (token : String) (ch : Option String) (header claims : Claims)
    (k : String) (n : Int)
    (h1 : env.headerResult = .ok header)
    (h2 : algMismatch cfg.algorithm (getClaim header "alg") = false)
    (h3 : env.keyResult = .ok k)
    (h4 : env.decodeResult = .ok claims)
    (hexp : getClaim claims "exp" = some (JValue.num n))
    (hn : n ≠ 0) (hlt : n < env.now) :
    load_access_token cfg env token ch = (.ok none, some "Token expired") := by
  unfold load_access_token
  rw [runStages_decoded cfg env token header claims k h1 h2 h3 h4,
      claimsStages_expired cfg env token claims n hexp hn hlt]

/-- C4 witness: a token with `exp = 100` (in the past, nonzero) fails
with exactly "Token expired". -/
theorem c4_witness :
    load_access_token cfgPlain (mkEnv claimsC8) "tok" none
      = (.ok none, some "Token expired") :=
  c4_amended_expired cfgPlain (mkEnv claimsC8) "tok" none hsHeader claimsC8
    "verification-key" 100 rfl rfl rfl rfl rfl (by decide) (by decide)

/-- C8: a failing run publishes exactly one category, the one of the
first failing stage: a token that is both expired (nonzero numeric `exp`
in the past) and carries any issuer claim under any issuer configuration
always yields "Token expired" (which differs from "Issuer mismatch"),
because the expiry stage runs first; and every failing run ends with the
channel holding exactly one string of the closed category enumeration. -/
theorem c8_first_failing_stage (cfg : VerifierConfig) (env : TokenEnv)
    (token : String) (ch : Option String) (header claims : Claims)
    (k : String) (n : Int)
    (h1 : env.headerResult = .ok header)
    (h2 : algMismatch cfg.algorithm (getClaim header "alg") = false)
    (h3 : env.keyResult = .ok k)
    (h4 : env.decodeResult = .ok claims)
    (hexp : getClaim claims "exp" = some (JValue.num n))
    (hn : n ≠ 0) (hlt : n < env.now) :
    load_access_token cfg env token ch = (.ok none, some "Token expired")
    ∧ (some "Token expired" : Option String) ≠ some "Issuer mismatch"
    ∧ ∀ (cfg2 : VerifierConfig) (env2 : TokenEnv) (t2 : String)
        (ch2 : Option String),
        (load_access_token cfg2 env2 t2 ch2).1 = .ok none →
        ∃ c : FailureCategory,
          (load_access_token cfg2 env2 t2 ch2).2 = some c.text := by
  refine ⟨?_, by decide, ?_⟩
  · unfold load_access_token
    rw [runStages_decoded cfg env token header claims k h1 h2 h3 h4,
        claimsStages_expired cfg env token claims n hexp hn hlt]
  · intro cfg2 env2 t2 ch2 h
    unfold load_access_token at h ⊢
    cases hr : runStages cfg2 env2 t2 with
    | ok sr =>
      cases sr with
      | success t => rw [hr] at h; simp at h
      | failure r =>
        obtain ⟨c, hc⟩ := category_of_text r (runStages_failure_mem cfg2 env2 t2 r hr)
        exact ⟨c, by simp [hc]⟩
    | error e =>
      by_cases hcatch : catchAllCatches e
      · simp only [hcatch, if_true]
        exact ⟨.validationFailed, rfl⟩
      · rw [hr] at h
        simp [hcatch] at h

/-- C8 witness: a token that is both expired and has a wrong issuer,
verified against a configuration expecting "test-issuer", reports
"Token expired", not "Issuer mismatch". -/
theorem c8_witness :
    load_access_token cfgC8 (mkEnv claimsC8) "tok" none
      = (.ok none, some "Token expired") :=
  (c8_first_failing_stage cfgC8 (mkEnv claimsC8) "tok" none hsHeader claimsC8
      "verification-key" 100 rfl rfl rfl rfl rfl (by decide) (by decide)).1

/-- C9: a present but falsy `exp` claim (such as `exp = 0`) makes the
explicit expiry stage a no-op - the run never reports "Token expired" -
and when validation succeeds the returned principal's `expires_at` is
`None` even though an `exp` claim was present. -/
theorem c9_falsy_exp_skipped (cfg : VerifierConfig) (env : TokenEnv)
    (token : String) (ch : Option String) (header claims : Claims)
    (k : String) (v : JValue)
    (h1 : env.headerResult = .ok header)
    (h2 : algMismatch cfg.algorithm (getClaim header "alg") = false)
    (h3 : env.keyResult = .ok k)
    (h4 : env.decodeResult = .ok claims)
    (hexp : getClaim claims "exp" = some v)
    (hv : truthy v = false) :
    (load_access_token cfg env token ch).2 ≠ some "Token expired"
    ∧ ∀ a : AccessTokenModel,
        (load_access_token cfg env token ch).1 = .ok (some a) →
        a.expires_at = none := by
  have hrs := runStages_decoded cfg env token header claims k h1 h2 h3 h4
  have hstage : expStageCheck (getClaim claims "exp") env.now = .ok false := by
    rw [hexp]
    simp [expStageCheck, hv]
  constructor
  · unfold load_access_token
    rw [hrs]
    cases hr : claimsStages cfg env token claims with
    | ok sr =>
      cases sr with
      | success t => simp
      | failure r =>
        have := claimsStages_not_expired_reason cfg env token claims r hstage hr
        simpa using this
    | error e =>
      by_cases hcatch : catchAllCatches e
      · simp [hcatch]
      · simp [hcatch]
  · intro a ha
    have hr := load_success_inv cfg env token ch a ha
    rw [hrs] at hr
    obtain ⟨-, hea, -⟩ := claimsStages_success_inv cfg env token claims a hr
    rw [hexp] at hea
    simp [expiresAtOf, hv] at hea
    exact hea.symm

/-- C9 witness: with `exp = 0` the run does not report "Token expired". -/
theorem c9_witness :
    (load_access_token cfgPlain envC4 "tok" none).2 ≠ some "Token expired" :=
  (c9_falsy_exp_skipped cfgPlain envC4 "tok" none hsHeader claimsC4
      "verification-key" (JValue.num 0) rfl rfl rfl rfl rfl (by decide)).1

/-- The or-chain of the source computes exactly the first truthy claim
among `client_id`, `azp`, `sub`, with fallback `"unknown"`. -/
theorem clientIdOf_eq_spec (claims : Claims) :
    clientIdOf claims = specClientId claims := by
  unfold clientIdOf specClientId
  cases h1 : getClaim claims "client_id" with
  | some v1 =>
    by_cases t1 : truthy v1
    · simp [firstTruthy, pyOr, t1]
    · have t1f : truthy v1 = false := by simpa using t1
      cases h2 : getClaim claims "azp" with
      | some v2 =>
        by_cases t2 : truthy v2
        · simp [firstTruthy, pyOr, t1f, t2]
        · have t2f : truthy v2 = false := by simpa using t2
          cases h3 : getClaim claims "sub" with
          | some v3 =>
            by_cases t3 : truthy v3
            · simp [firstTruthy, pyOr, t1f, t2f, t3]
            · have t3f : truthy v3 = false := by simpa using t3
              simp [firstTruthy, pyOr, t1f, t2f, t3f]
          | none => simp [firstTruthy, pyOr, t1f, t2f]
      | none =>
        cases h3 : getClaim claims "sub" with
        | some v3 =>
          by_cases t3 : truthy v3
          · simp [firstTruthy, pyOr, t1f, t3]
          · have t3f : truthy v3 = false := by simpa using t3
            simp [firstTruthy, pyOr, t1f, t3f]
        | none => simp [firstTruthy, pyOr, t1f]
  | none =>
    cases h2 : getClaim claims "azp" with
    | some v2 =>
      by_cases t2 : truthy v2
      · simp [firstTruthy, pyOr, t2]
      · have t2f : truthy v2 = false := by simpa using t2
        cases h3 : getClaim claims "sub" with
        | some v3 =>
          by_cases t3 : truthy v3
          · simp [firstTruthy, pyOr, t2f, t3]
          · have t3f : truthy v3 = false := by simpa using t3
            simp [firstTruthy, pyOr, t2f, t3f]
        | none => simp [firstTruthy, pyOr, t2f]
    | none =>
      cases h3 : getClaim claims "sub" with
      | some v3 =>
        by_cases t3 : truthy v3
        · simp [firstTruthy, pyOr, t3]
        · have t3f : truthy v3 = false := by simpa using t3
          simp [firstTruthy, pyOr, t3f]
      | none => simp [firstTruthy, pyOr]

/-- If the expiry stage passed with result false, the `expires_at` the
success path computes agrees with the amended specification rule. -/
theorem expiresAtOf_eq_spec (claims : Claims) (now : Int) (ea : Option Int)
    (hstage : expStageCheck (getClaim claims "exp") now = .ok false)
    (hea : expiresAtOf (getClaim claims "exp") = .ok ea) :
    ea = specExpiresAt claims := by
  unfold specExpiresAt
  cases hx : getClaim claims "exp" with
  | none =>
    rw [hx] at hea
    simp [expiresAtOf] at hea
    simp [hea.symm]
  | some v =>
    rw [hx] at hea hstage
    by_cases tv : truthy v
    · cases v with
      | num n =>
        simp [expiresAtOf, tv, pyInt, Except.map] at hea
        have hn : n ≠ 0 := by simpa [truthy] using tv
        simp [hn, ← hea]
      | str s => simp [expStageCheck, tv, pyLtNum] at hstage
      | list xs => simp [expStageCheck, tv, pyLtNum] at hstage
      | null => simp [truthy] at tv
    · have tv0 : truthy v = false := by simpa using tv
      simp [expiresAtOf, tv0] at hea
      cases v with
      | num n =>
        have : n = 0 := by simpa [truthy] using tv0
        simp [this, ← hea]
      | str s => simp [← hea]
      | list xs => simp [← hea]
      | null => simp [← hea]

/-- The audience check succeeds exactly when the expected set and the
token audience set intersect, in all four scalar/list combinations. -/
theorem audienceValid_iff (c : StrOrList) (aud : Option JValue) :
    audienceValid c aud = true ↔
      ∃ e ∈ expectedAudiences c,
        ∃ y ∈ audMembers aud, y.eqStr e = true := by
  cases c with
  | one s =>
    cases aud with
    | none => simp [audienceValid, expectedAudiences, audMembers]
    | some v =>
      cases v <;>
        simp [audienceValid, expectedAudiences, audMembers, List.any_eq_true]
  | many xs =>
    cases aud with
    | none => simp [audienceValid, expectedAudiences, audMembers, optInStrList]
    | some v =>
      cases v <;>
        simp [audienceValid, expectedAudiences, audMembers, optInStrList,
              List.any_eq_true]

/-- A missing `aud` claim matches no configured audience. -/
theorem audienceValid_none (c : StrOrList) : audienceValid c none = false := by
  cases c <;> simp [audienceValid, optInStrList]

/-- C5 counterexample: `claimsC5` passes every stage; it carries
`client_id` (the empty string) and `exp` (the number 0), yet the
returned principal has `clientId = "service-a"` (the `azp` value, not
the `client_id` value) and no `expiresAt` (though `exp` was present). -/
theorem c5_counterexample :
    getClaim claimsC5 "client_id" = some (JValue.str "")
    ∧ getClaim claimsC5 "exp" = some (JValue.num 0)
    ∧ (load_access_token cfgPlain envC5 "tok" none).1 = .ok (some tokC5)
    ∧ tokC5.client_id ≠ ""
    ∧ tokC5.expires_at ≠ some 0 :=
  ⟨rfl, rfl, rfl, by decide, by decide⟩

/-- C5 as amended: for every token that passes all validation stages,
the principal's `clientId` is the first truthy value among `client_id`,
`azp`, `sub` (rendered with `str`), else `"unknown"`; and its
`expires_at` is the integer `exp` when `exp` is present, numeric and
truthy (nonzero), and absent when `exp` is missing or falsy. -/
theorem c5_amended_principal (cfg : VerifierConfig) (env : TokenEnv)
    (token : String) (ch : Option String) (header claims : Claims)
    (k : String) (a : AccessTokenModel)
    (h1 : env.headerResult = .ok header)
    (h2 : algMismatch cfg.algorithm (getClaim header "alg") = false)
    (h3 : env.keyResult = .ok k)
    (h4 : env.decodeResult = .ok claims)
    (hres : (load_access_token cfg env token ch).1 = .ok (some a)) :
    a.client_id = specClientId claims
    ∧ a.expires_at = specExpiresAt claims := by
  have hr := load_success_inv cfg env token ch a hres
  rw [runStages_decoded cfg env token header claims k h1 h2 h3 h4] at hr
  obtain ⟨hcid, hea, hstage⟩ := claimsStages_success_inv cfg env token claims a hr
  exact ⟨by rw [hcid, clientIdOf_eq_spec],
         expiresAtOf_eq_spec claims env.now a.expires_at hstage hea⟩

/-- C5 witness: the principal built from `claimsC5` satisfies the
amended rules. -/
theorem c5_witness :
    tokC5.client_id = specClientId claimsC5
    ∧ tokC5.expires_at = specExpiresAt claimsC5 :=
  c5_amended_principal cfgPlain envC5 "tok" none hsHeader claimsC5
    "verification-key" tokC5 rfl rfl rfl rfl rfl

/-- C6: when an audience is configured (truthy), the audience check
succeeds exactly when some expected audience value is present in (or
equal to) the token's audience - set-intersection semantics over all
four scalar/list combinations - and on mismatch the call returns no
result with the channel holding "Audience mismatch". -/
theorem c6_audience_intersection (cfg : VerifierConfig) (env : TokenEnv)
    (token : String) (ch : Option String) (header claims : Claims)
    (k : String) (c : StrOrList)
    (h1 : env.headerResult = .ok header)
    (h2 : algMismatch cfg.algorithm (getClaim header "alg") = false)
    (h3 : env.keyResult = .ok k)
    (h4 : env.decodeResult = .ok claims)
    (hstage : expStageCheck (getClaim claims "exp") env.now = .ok false)
    (hiss : issuerStageFails cfg.issuer (getClaim claims "iss") = false)
    (haud : cfg.audience = some c)
    (htr : c.isTruthy = true) :
    (audienceValid c (getClaim claims "aud") = true ↔
      ∃ e ∈ expectedAudiences c,
        ∃ y ∈ audMembers (getClaim claims "aud"), y.eqStr e = true)
    ∧ (audienceValid c (getClaim claims "aud") = false →
        load_access_token cfg env token ch
          = (.ok none, some "Audience mismatch")) := by
  refine ⟨audienceValid_iff c _, ?_⟩
  intro hv
  unfold load_access_token
  rw [runStages_decoded cfg env token header claims k h1 h2 h3 h4]
  unfold claimsStages
  rw [hstage]
  simp [hiss, audienceStageFails, haud, htr, hv]

/-- C6 witness: a scalar `aud` not contained in the configured audience
list yields "Audience mismatch". -/
theorem c6_witness :
    load_access_token cfgC6 (mkEnv claimsC6) "tok" none
      = (.ok none, some "Audience mismatch") :=
  (c6_audience_intersection cfgC6 (mkEnv claimsC6) "tok" none hsHeader claimsC6
      "verification-key" (.many ["aud1", "aud2"])
      rfl rfl rfl rfl rfl rfl rfl rfl).2 rfl

/-- C10: a token with no `aud` claim at all, checked against any truthy
configured audience (scalar or list), fails with "Audience mismatch". -/
theorem c10_missing_aud_mismatch (cfg : VerifierConfig) (env : TokenEnv)
    (token : String) (ch : Option String) (header claims : Claims)
    (k : String) (c : StrOrList)
    (h1 : env.headerResult = .ok header)
    (h2 : algMismatch cfg.algorithm (getClaim header "alg") = false)
    (h3 : env.keyResult = .ok k)
    (h4 : env.decodeResult = .ok claims)
    (hstage : expStageCheck (getClaim claims "exp") env.now = .ok false)
    (hiss : issuerStageFails cfg.issuer (getClaim claims "iss") = false)
    (haud : cfg.audience = some c)
    (htr : c.isTruthy = true)
    (hnone : getClaim claims "aud" = none) :
    load_access_token cfg env token ch = (.ok none, some "Audience mismatch") := by
  unfold load_access_token
  rw [runStages_decoded cfg env token header claims k h1 h2 h3 h4]
  unfold claimsStages
  rw [hstage]
  simp [hiss, audienceStageFails, haud, htr, hnone, audienceValid_none]

/-- C10 witness: claims without `aud` against a scalar configured
audience yield "Audience mismatch". -/
theorem c10_witness :
    load_access_token cfgC10 (mkEnv claimsOk) "tok" none
      = (.ok none, some "Audience mismatch") :=
  c10_missing_aud_mismatch cfgC10 (mkEnv claimsOk) "tok" none hsHeader claimsOk
    "verification-key" (.one "test-audience")
    rfl rfl rfl rfl rfl rfl rfl rfl rfl

/-- C7 witness: with a bearer token, a failed pipeline and the channel
holding "Token expired", the backend raises exactly that category and
clears the channel. -/
theorem c7_witness :
    authenticate none [("Authorization", "Bearer some-token")]
        (some "Token expired")
      = (.authError "Token expired", none) :=
  (c7_authenticate_contract [("Authorization", "Bearer some-token")]
      (some "Token expired") .tokenExpired).2.1 (by decide) rfl

end JwtVerifier
